import Mathlib

/-!
Verification of the fireboomio/sdk-template_js-client hook-server core:
a shallow embedding in Lean 4 of the correlation-id assigner, the category
registries, the health reporter, the request-context builder, the extension
loader and the shutdown coordinator, with theorems settling the spec claims.
-/

namespace Fireboom

/-! ## Correlation-Id Assigner (src/files/src/server.ts, lines 21-31)

The Fastify `genReqId` callback:
```
let id = 0
genReqId: req => {
  if (req.headers[x-request-id]) { return req.headers[x-request-id]?.toString() }
  return `${++id}`
}
```
We model the (scalar, string-valued) `x-request-id` header as `Option String`.
JavaScript truthiness on a string is falsity exactly on the empty string, so the
`if` guard passes exactly when the header is present and non-empty. The closure
variable `id` is threaded explicitly: `genReqId` maps a header and the current
counter to the assigned id and the next counter. -/

def genReqId (header : Option String) (id : Nat) : String × Nat :=
  match header with
  | some h => if h = "" then (toString (id + 1), id + 1) else (h, id)
  | none => (toString (id + 1), id + 1)

/-- Process a sequence of inbound requests (each represented by its optional
`x-request-id` header), threading the process-scoped counter, and collect the
assigned correlation ids in arrival order. -/
def assignIds : List (Option String) → Nat → List String
  | [], _ => []
  | r :: rs, id =>
    let p := genReqId r id
    p.1 :: assignIds rs p.2

/-! ## Proxy Category Registry (src/unnamed/part_000)

```
let proxyNameList: string[]
export async function registerProxyHandler(path, config) {
  const routeUrl = replaceUrl(Endpoint.Proxy, { path })
  fastify.route({ method: [GET, POST], url: routeUrl, ..., handler })
  proxyNameList.push(path)
}
export const FireboomProxiesPlugin = async (_fastify) => { fastify = _fastify; proxyNameList = [] }
export function getproxyNameList() { return proxyNameList }
```
State = the routes bound on the transport plus the module-level name list. -/

/-- Modelled from the spec: `replaceUrl` and `Endpoint.Proxy` live in files absent
from src/ (src/utils.ts, src/types/server.ts). Per the spec, the proxy category
mounts at a templated path carrying the proxy's own name as a path segment. -/
def replaceUrlProxy (path : String) : String := "/proxy/" ++ path

structure ProxyState where
  routes : List String
  proxyNameList : List String
deriving DecidableEq, Repr

/-- `FireboomProxiesPlugin` initialises the module state: `proxyNameList = []`
(and no proxy routes bound yet). -/
def FireboomProxiesPlugin : ProxyState := { routes := [], proxyNameList := [] }

/-- `registerProxyHandler(path, config)`: binds the templated route on the
transport and appends `path` to the name list (JS `push` appends at the end). -/
def registerProxyHandler (path : String) (s : ProxyState) : ProxyState :=
  { routes := s.routes ++ [replaceUrlProxy path],
    proxyNameList := s.proxyNameList ++ [path] }

/-- `getproxyNameList()` returns the module-level name list. -/
def getproxyNameList (s : ProxyState) : List String := s.proxyNameList

/-- A sequence of `registerProxyHandler` calls, in order. -/
def registerAllProxies (paths : List String) (s : ProxyState) : ProxyState :=
  paths.foldl (fun s p => registerProxyHandler p s) s

/-! ## Customize / Function / Hook registries

src/customize.ts, src/function.ts and src/hooks.ts are absent from src/; only
their callers (src/files/src/health.ts, src/files/src/server.ts) are present.
The spec states that all category registries are structurally identical to the
proxy registry: `register` appends the name in registration order, `listNames`
returns the insertion-ordered list, and each registry starts empty at boot. -/

/-- Modelled from the spec: the Customize registry of the absent
src/customize.ts — an insertion-ordered name list, empty at boot. -/
structure CustomizeState where
  customizeNameList : List String
deriving DecidableEq, Repr

/-- Modelled from the spec: `getCustomizeNameList` of the absent
src/customize.ts returns the insertion-ordered registered names. -/
def getCustomizeNameList (s : CustomizeState) : List String := s.customizeNameList

/-- Modelled from the spec: the Function registry of the absent
src/function.ts — an insertion-ordered name list, empty at boot. -/
structure FunctionState where
  functionNameList : List String
deriving DecidableEq, Repr

/-- Modelled from the spec: `getFunctionNameList` of the absent src/function.ts
returns the insertion-ordered registered names. -/
def getFunctionNameList (s : FunctionState) : List String := s.functionNameList

/-- Modelled from the spec: the Hook registry of the absent src/hooks.ts — an
insertion-ordered name list, empty at boot. (The health endpoint in
src/files/src/health.ts never queries it.) -/
structure HookState where
  hookNameList : List String
deriving DecidableEq, Repr

/-! ## Health Reporter (src/files/src/health.ts)

```
const startTime = new Date().toISOString()
export const FireboomHealthPlugun = async (fastify) => {
  fastify.get(Endpoint.Health, async (request, reply) => {
    return { status: ok,
             report: { customizes: getCustomizeNameList(),
                       functions: getFunctionNameList(),
                       proxys: getproxyNameList(),
                       time: startTime } }
  })
}
```
The reply envelope carries exactly the fields the handler writes: `status` and a
`report` with `customizes`, `functions`, `proxys` and `time`. There is no hooks
field in the response. -/

structure HealthReport where
  customizes : List String
  functions : List String
  proxys : List String
  time : String
deriving DecidableEq, Repr

structure Health where
  status : String
  report : HealthReport
deriving DecidableEq, Repr

/-- The body of the GET handler registered by `FireboomHealthPlugun`: reads the
three registries it imports, live, at call time, plus the module-level
`startTime` captured when src/files/src/health.ts was first loaded. -/
def healthHandler (startTime : String) (c : CustomizeState) (f : FunctionState)
    (p : ProxyState) : Health :=
  { status := "ok",
    report := { customizes := getCustomizeNameList c,
                functions := getFunctionNameList f,
                proxys := getproxyNameList p,
                time := startTime } }

/-- `const startTime = new Date().toISOString()` (src/files/src/health.ts line
7): evaluated exactly once, when the module is first loaded; `loadClock` is the
wall-clock reading at that moment. -/
def startTimeOfLoad (loadClock : String) : String := loadClock

set_option linter.unusedVariables false in
/-- One invocation of the health endpoint at wall-clock instant `callClock`,
in a process whose health module was loaded at instant `loadClock`. The handler
body (src/files/src/health.ts lines 10-20) never consults the clock at call
time: `callClock` does not occur in the result. -/
def healthAt (loadClock callClock : String) (c : CustomizeState)
    (f : FunctionState) (p : ProxyState) : Health :=
  healthHandler (startTimeOfLoad loadClock) c f p

/-! ## Request Context Builder (src/files/src/server.ts, lines 65-83)

```
fastify.addHook(preHandler, async (req, reply) => {
  const clientRequest = req.body.__wg.clientRequest
  const operationsClient = new OperationsClient({
    baseURL: config.apiBaseURL, customFetch: fetch,
    requestTimeoutMs: 3000, clientRequest })
  req.ctx = { logger, user: req.body.__wg.user!, clientRequest, operationsClient }
})
```
JavaScript semantics embedded: reading a property of `undefined` throws an
immediate TypeError, while a missing property of a present object yields
`undefined` without throwing. `req.body` may be absent (none), its `__wg`
envelope field may be absent, and within a present envelope both
`clientRequest` and `user` may independently be absent. The TypeScript
non-null assertion `user!` has no runtime effect, so an absent `user` flows
through as `undefined`. -/

/-- Opaque snapshot of the originating external caller request. -/
structure ClientRequest where
  raw : String
deriving DecidableEq, Repr

/-- The caller-identity claim carried in the envelope. -/
structure User where
  name : String
deriving DecidableEq, Repr

/-- The `__wg` envelope field of the request body; both of its fields may be
absent at runtime. -/
structure WgEnvelope where
  clientRequest : Option ClientRequest
  user : Option User
deriving DecidableEq, Repr

/-- The parsed request body; the `__wg` field may be absent at runtime. -/
structure RawBody where
  __wg : Option WgEnvelope
deriving DecidableEq, Repr

/-- A JavaScript runtime exception thrown inside a handler or hook. -/
inductive JsError where
  | typeError
deriving DecidableEq, Repr

/-- Modelled from the spec: the platform-client capability constructed by the
absent src/operations.client.ts. We record the constructor options the
preHandler passes: the platform base URL, the hard request timeout in
milliseconds enforced by the client itself, and the caller request it is bound
to. -/
structure OperationsClient where
  baseURL : String
  requestTimeoutMs : Nat
  clientRequest : Option ClientRequest
deriving DecidableEq, Repr

/-- The request context decorated onto the request (`req.ctx`). -/
structure RequestCtx where
  user : Option User
  clientRequest : Option ClientRequest
  operationsClient : OperationsClient
deriving DecidableEq, Repr

/-- The preHandler hook of src/files/src/server.ts lines 66-83: extracts
`req.body.__wg.clientRequest` (throwing a TypeError when `req.body` or
`req.body.__wg` is undefined), constructs the `OperationsClient` with the
literal `requestTimeoutMs: 3000`, and decorates the context onto the request.
The ambient `logger` capability carries no request-dependent data and is
omitted from the context record. -/
def preHandler (apiBaseURL : String) (body : Option RawBody) :
    Except JsError RequestCtx :=
  match body with
  | none => .error .typeError
  | some b =>
    match b.__wg with
    | none => .error .typeError
    | some wg =>
      let clientRequest := wg.clientRequest
      let operationsClient : OperationsClient :=
        { baseURL := apiBaseURL, requestTimeoutMs := 3000,
          clientRequest := clientRequest }
      .ok { user := wg.user, clientRequest := clientRequest,
            operationsClient := operationsClient }

/-- Dispatch of one request to a matched category handler: Fastify runs the
preHandler hook first; if it throws, the handler never runs, otherwise the
handler receives the request carrying the context the preHandler attached —
built exactly once, passed by reference. -/
def dispatch {α : Type} (apiBaseURL : String) (handler : RequestCtx → α)
    (body : Option RawBody) : Except JsError α :=
  (preHandler apiBaseURL body).map handler

/-! ## Extension Loader (src/files/src/server.ts, lines 97-101)

```
const entries = await glob(resolve(__dirname,
  `./{customize,global,operation,storage,proxy}/**/*.${NODE_ENV === production ? js : ts}`))
for (const entry of entries) { require(entry) }
```
The glob itself is the file system (external); we embed the pattern the code
builds and the loading loop. Each enumerated module file, when required,
executes its top level: it self-registers (a transformation of the registry
state) or throws. The `for` loop has no try/catch: a throw propagates out of
the surrounding `fastify.register` callback and aborts startup. -/

/-- The fixed set of category directories scanned at startup. -/
def categoryDirs : List String :=
  ["customize", "global", "operation", "storage", "proxy"]

/-- The executable-artifact suffix selected by the runtime kind:
`NODE_ENV === production` scans packaged `js` artifacts, otherwise `ts`. -/
def artifactSuffix (productionEnv : Bool) : String :=
  if productionEnv then "js" else "ts"

/-- The glob pattern string built at src/files/src/server.ts line 98. -/
def globPattern (productionEnv : Bool) : String :=
  "./\x7bcustomize,global,operation,storage,proxy\x7d/**/*."
    ++ artifactSuffix productionEnv

/-- One discovered extension module file: its path and its top-level execution,
a self-registration side effect on the registry state `σ` that may throw. -/
structure ModuleFile (σ : Type) where
  path : String
  run : σ → Except JsError σ

/-- The loading loop: `for (const entry of entries) require(entry)`. Each file
executes in enumeration order; the first throw propagates immediately, so the
remaining files never execute and startup is aborted with that error. -/
def requireAll {σ : Type} : List (ModuleFile σ) → σ → Except JsError σ
  | [], s => .ok s
  | m :: ms, s =>
    match m.run s with
    | .error e => .error e
    | .ok s2 => requireAll ms s2

/-! ## Shutdown Coordinator (src/files/src/server.ts, lines 104-111)

```
closeWithGrace({ delay: 500 }, async ({ err }) => {
  if (err) { logger.error(Error when graceful shutdown Fireboom hook server, err) }
  await fastify.close()
  logger.info(Fireboom hook server is closed)
})
```
The callback is entirely in src; the surrounding close-with-grace machinery is
an external library, modelled from the spec below. -/

/-- The fixed grace delay passed to the coordinator, in milliseconds. -/
def graceDelayMs : Nat := 500

inductive ShutdownState where
  | Running
  | Draining
  | Closed
deriving DecidableEq, Repr

/-- The signal callback of src/files/src/server.ts lines 105-111, as the log
lines it emits: the error, when present, is logged and nothing else — the
`fastify.close()` call and the closing log line follow unconditionally. -/
def onCloseSignal (err : Option String) : List String :=
  (match err with
   | some _ => ["Error when graceful shutdown Fireboom hook server"]
   | none => []) ++ ["Fireboom hook server is closed"]

structure ShutdownOutcome where
  final : ShutdownState
  forcedByDelay : Bool
  logs : List String
deriving DecidableEq, Repr

/-- Modelled from the spec: the close-with-grace coordinator (an external
library, not under src/). Per §4.6, on a termination signal the state moves
`Running -> Draining`, the callback runs, and after at most the fixed grace
delay the coordinator forces release of transport resources regardless of
whether in-flight requests (`callbackDurationMs`) have completed: the final
state is `Closed` in every case, recording whether the close was forced by the
delay. The callback's log lines are those of `onCloseSignal`. -/
def shutdownRun (err : Option String) (callbackDurationMs : Nat) :
    ShutdownOutcome :=
  { final := ShutdownState.Closed,
    forcedByDelay := graceDelayMs < callbackDurationMs,
    logs := onCloseSignal err }

end Fireboom

namespace Fireboom

/-- Helper: `registerAllProxies` appends the registered names, in order, to the
name list, and appends the corresponding routes to the route table. -/
theorem registerAllProxies_spec (paths : List String) (s : ProxyState) :
    (registerAllProxies paths s).proxyNameList = s.proxyNameList ++ paths ∧
    (registerAllProxies paths s).routes = s.routes ++ paths.map replaceUrlProxy := by
  induction paths generalizing s with
  | nil => simp [registerAllProxies]
  | cons p ps ih =>
    have h := ih (registerProxyHandler p s)
    simp only [registerAllProxies, List.foldl_cons] at h ⊢
    constructor
    · rw [h.1]; simp [registerProxyHandler]
    · rw [h.2]; simp [registerProxyHandler]

/-- Helper: splitting the loading loop — running `xs ++ ys` runs `xs` first and,
only if every file of `xs` succeeded, continues with `ys` from the reached
state; an error in `xs` is returned unchanged. -/
theorem requireAll_append {σ : Type} (xs ys : List (ModuleFile σ)) (s : σ) :
    requireAll (xs ++ ys) s =
      match requireAll xs s with
      | .ok s2 => requireAll ys s2
      | .error e => .error e := by
  induction xs generalizing s with
  | nil => rfl
  | cons m ms ih =>
    simp only [List.cons_append, requireAll]
    cases m.run s <;> simp [ih]

/-- C1 (counterexample): a request that carries the caller-supplied
`x-request-id` header with the empty-string value does not receive that value
verbatim — the JavaScript truthiness guard rejects the empty string, so the
code assigns the generated counter id `"6"` (at counter 5) instead of `""`. -/
theorem C1_empty_header_not_verbatim :
    genReqId (some "") 5 = ("6", 6) ∧ (genReqId (some "") 5).1 ≠ "" := by
  constructor <;> decide

/-- C1 (amended): the correlation id is the caller-supplied header value
verbatim whenever the request carries one with a non-empty value (even if it
collides with a previously generated integer id — the counter state does not
affect it); a request with no header (or an empty-valued one) gets the string
form of the incremented process-scoped counter, which never decreases (ids are
never reused); and the first two headerless requests of a process receive the
strictly increasing, distinct ids "1" then "2". -/
theorem C1_correlation_id_policy :
    (∀ (h : String) (id : Nat), h ≠ "" → genReqId (some h) id = (h, id)) ∧
    (∀ id : Nat, genReqId none id = (toString (id + 1), id + 1)) ∧
    (∀ (header : Option String) (id : Nat), id ≤ (genReqId header id).2) ∧
    assignIds [none, none] 0 = ["1", "2"] ∧ ("1" : String) ≠ "2" := by
  refine ⟨?_, ?_, ?_, by decide, by decide⟩
  · intro h id hne
    simp [genReqId, hne]
  · intro id
    rfl
  · intro header id
    match header with
    | none => simp [genReqId]
    | some h =>
      by_cases he : h = "" <;> simp [genReqId, he]

/-- Witness for C1_correlation_id_policy: a concrete non-empty header is used
verbatim with the counter untouched. -/
theorem C1_correlation_id_policy_witness :
    genReqId (some "trace-abc") 7 = ("trace-abc", 7) :=
  C1_correlation_id_policy.1 "trace-abc" 7 (by decide)

/-- C2: for every sequence of `registerProxyHandler` calls starting from the
state initialised by `FireboomProxiesPlugin`, `getproxyNameList` returns
exactly the registered names in registration (insertion) order, and its length
equals the number of register calls. -/
theorem C2_proxy_name_list_order (paths : List String) :
    getproxyNameList (registerAllProxies paths FireboomProxiesPlugin) = paths ∧
    (getproxyNameList (registerAllProxies paths FireboomProxiesPlugin)).length
      = paths.length := by
  have h := (registerAllProxies_spec paths FireboomProxiesPlugin).1
  constructor
  · simpa [getproxyNameList, FireboomProxiesPlugin] using h
  · simp [getproxyNameList, FireboomProxiesPlugin] at h ⊢
    simp [h]

/-- C3 (counterexample): the health snapshot does not contain the name lists of
all four category registries — the reply transcribed from the handler body of
src/files/src/health.ts carries exactly three registry lists (`customizes`,
`functions`, `proxys`) plus `time`; the hook registry is not an input of
`healthHandler` and `HealthReport` has no hooks component, so even before any
extension is loaded the full concrete response is the record below, which
reports three lists, not four. -/
theorem C3_no_hooks_list_in_health :
    healthHandler "t0" ⟨[]⟩ ⟨[]⟩ FireboomProxiesPlugin =
      { status := "ok",
        report := { customizes := [], functions := [], proxys := [],
                    time := "t0" } } := by
  decide

/-- C3 (amended): every call to the health endpoint returns a snapshot with
status ok, the process start time, and the name lists of the three category
registries the endpoint queries (customizes, functions, proxys — not hooks),
reflecting the live registry contents at call time; before any extension is
loaded, all three lists are empty and the status is ok. -/
theorem C3_health_snapshot (t : String) (c : CustomizeState) (f : FunctionState)
    (p : ProxyState) :
    (healthHandler t c f p).status = "ok" ∧
    (healthHandler t c f p).report.customizes = getCustomizeNameList c ∧
    (healthHandler t c f p).report.functions = getFunctionNameList f ∧
    (healthHandler t c f p).report.proxys = getproxyNameList p ∧
    (healthHandler t c f p).report.time = t ∧
    healthHandler t ⟨[]⟩ ⟨[]⟩ FireboomProxiesPlugin =
      { status := "ok",
        report := { customizes := [], functions := [], proxys := [],
                    time := t } } :=
  ⟨rfl, rfl, rfl, rfl, rfl, rfl⟩

/-- C4: after registering the name "orders" in the Proxy category (all
registries starting boot-empty), the health report includes "orders" in the
`proxys` list and in no other category's list. -/
theorem C4_orders_only_in_proxys :
    (healthHandler "t0" ⟨[]⟩ ⟨[]⟩
        (registerProxyHandler "orders" FireboomProxiesPlugin)).report.proxys
      = ["orders"] ∧
    "orders" ∈ (healthHandler "t0" ⟨[]⟩ ⟨[]⟩
        (registerProxyHandler "orders" FireboomProxiesPlugin)).report.proxys ∧
    "orders" ∉ (healthHandler "t0" ⟨[]⟩ ⟨[]⟩
        (registerProxyHandler "orders" FireboomProxiesPlugin)).report.customizes ∧
    "orders" ∉ (healthHandler "t0" ⟨[]⟩ ⟨[]⟩
        (registerProxyHandler "orders" FireboomProxiesPlugin)).report.functions := by
  refine ⟨by decide, by decide, by decide, by decide⟩

/-- C5: for every dispatched request whose body carries a `__wg` envelope, the
RequestContext is constructed exactly once by the preHandler, before the
matched category handler executes, and the handler receives exactly that
context; the platform client it contains is bound to the caller-request
payload extracted from the envelope, with the literal hard timeout of 3000 ms
— a constant independent of anything else about the request. -/
theorem C5_context_before_handler {α : Type} (apiBaseURL : String)
    (handler : RequestCtx → α) (b : RawBody) (wg : WgEnvelope)
    (h : b.__wg = some wg) :
    preHandler apiBaseURL (some b) =
      .ok { user := wg.user, clientRequest := wg.clientRequest,
            operationsClient :=
              { baseURL := apiBaseURL, requestTimeoutMs := 3000,
                clientRequest := wg.clientRequest } } ∧
    dispatch apiBaseURL handler (some b) =
      .ok (handler
            { user := wg.user, clientRequest := wg.clientRequest,
              operationsClient :=
                { baseURL := apiBaseURL, requestTimeoutMs := 3000,
                  clientRequest := wg.clientRequest } }) := by
  constructor <;> simp [preHandler, dispatch, h, Except.map]

/-- Witness for C5_context_before_handler: a concrete request whose handler
reads the client timeout out of the context it was handed. -/
theorem C5_context_before_handler_witness :
    preHandler "https://api.example" (some ⟨some ⟨some ⟨"cr0"⟩, some ⟨"alice"⟩⟩⟩) =
      .ok { user := some ⟨"alice"⟩, clientRequest := some ⟨"cr0"⟩,
            operationsClient :=
              { baseURL := "https://api.example", requestTimeoutMs := 3000,
                clientRequest := some ⟨"cr0"⟩ } } ∧
    dispatch "https://api.example"
        (fun ctx => ctx.operationsClient.requestTimeoutMs)
        (some ⟨some ⟨some ⟨"cr0"⟩, some ⟨"alice"⟩⟩⟩) = .ok 3000 :=
  C5_context_before_handler "https://api.example"
    (fun ctx => ctx.operationsClient.requestTimeoutMs)
    ⟨some ⟨some ⟨"cr0"⟩, some ⟨"alice"⟩⟩⟩ ⟨some ⟨"cr0"⟩, some ⟨"alice"⟩⟩ rfl

/-- C6: a request whose body envelope contains the caller-request payload but
omits the identity claim still completes context construction, with `user`
unset, and the matched handler still executes with that context. -/
theorem C6_missing_identity_still_dispatched {α : Type} (apiBaseURL : String)
    (handler : RequestCtx → α) (b : RawBody) (cr : ClientRequest)
    (h : b.__wg = some ⟨some cr, none⟩) :
    ∃ ctx : RequestCtx,
      preHandler apiBaseURL (some b) = .ok ctx ∧ ctx.user = none ∧
      dispatch apiBaseURL handler (some b) = .ok (handler ctx) := by
  refine ⟨{ user := none, clientRequest := some cr,
            operationsClient :=
              { baseURL := apiBaseURL, requestTimeoutMs := 3000,
                clientRequest := some cr } }, ?_, rfl, ?_⟩
  · simp [preHandler, h]
  · simp [dispatch, preHandler, h, Except.map]

/-- Witness for C6_missing_identity_still_dispatched: a concrete request with
the identity claim absent still reaches its handler with `user = none`. -/
theorem C6_missing_identity_witness :
    ∃ ctx : RequestCtx,
      preHandler "https://api.example" (some ⟨some ⟨some ⟨"cr0"⟩, none⟩⟩) = .ok ctx ∧
      ctx.user = none ∧
      dispatch "https://api.example" (fun ctx => ctx.user)
        (some ⟨some ⟨some ⟨"cr0"⟩, none⟩⟩) = .ok ctx.user :=
  C6_missing_identity_still_dispatched "https://api.example" (fun ctx => ctx.user)
    ⟨some ⟨some ⟨"cr0"⟩, none⟩⟩ ⟨"cr0"⟩ rfl

/-- C7 (counterexample): a request whose envelope is present but malformed in
its caller-request field (the field is missing) is NOT failed with a
client-error response — the context builder completes successfully, the
undefined `clientRequest` propagates into the handler's context, and the
handler executes and can observe the propagated undefined value. -/
theorem C7_missing_client_request_propagates :
    preHandler "https://api.example" (some ⟨some ⟨none, none⟩⟩) =
      .ok { user := none, clientRequest := none,
            operationsClient :=
              { baseURL := "https://api.example", requestTimeoutMs := 3000,
                clientRequest := none } } ∧
    dispatch "https://api.example" (fun ctx => ctx.clientRequest)
      (some ⟨some ⟨none, none⟩⟩) = .ok none := by
  constructor <;> rfl

/-- C7 (amended): the context builder performs no validation. When the body or
its `__wg` envelope field is absent, the property access throws a TypeError,
so the handler never runs — the request fails with the framework's generic
thrown-error response, which is not a guaranteed client-error (4xx) response.
When the envelope is present but its caller-request field is missing, the
request is not failed at all: construction completes and the undefined
caller-request value is propagated into the handler's context. -/
theorem C7_malformed_envelope_behavior {α : Type} (apiBaseURL : String)
    (handler : RequestCtx → α) (b : Option RawBody) :
    ((b = none ∨ b = some ⟨none⟩) →
      dispatch apiBaseURL handler b = .error .typeError) ∧
    (∀ wg : WgEnvelope, b = some ⟨some wg⟩ → wg.clientRequest = none →
      ∃ ctx : RequestCtx, preHandler apiBaseURL b = .ok ctx ∧
        ctx.clientRequest = none ∧
        dispatch apiBaseURL handler b = .ok (handler ctx)) := by
  constructor
  · rintro (rfl | rfl) <;> rfl
  · rintro ⟨cr, u⟩ rfl hcr
    subst hcr
    exact ⟨{ user := u, clientRequest := none,
             operationsClient :=
               { baseURL := apiBaseURL, requestTimeoutMs := 3000,
                 clientRequest := none } }, rfl, rfl, rfl⟩

/-- Witness for C7_malformed_envelope_behavior: a concretely absent body is
rejected by a thrown TypeError, and a concretely missing caller-request field
propagates unannounced. -/
theorem C7_malformed_envelope_witness :
    dispatch "https://api.example" (fun ctx => ctx.clientRequest) none
      = .error .typeError :=
  (C7_malformed_envelope_behavior "https://api.example"
    (fun ctx => ctx.clientRequest) none).1 (Or.inl rfl)

/-- C8: the loader scans the fixed category directories for files whose suffix
matches the active runtime artifact kind (`js` when packaged, `ts` in
development), executes each enumerated file in order so it can self-register,
and if any file throws during its top-level execution the loop propagates the
error immediately — startup is aborted and the files after the throwing one
never execute (the result is the thrown error whatever `post` contains). -/
theorem C8_loader_aborts_on_throw {σ : Type} (pre post : List (ModuleFile σ))
    (m : ModuleFile σ) (s s2 : σ) (e : JsError)
    (hpre : requireAll pre s = .ok s2) (hm : m.run s2 = .error e) :
    artifactSuffix true = "js" ∧ artifactSuffix false = "ts" ∧
    globPattern true
      = "./\x7bcustomize,global,operation,storage,proxy\x7d/**/*.js" ∧
    requireAll (pre ++ m :: post) s = .error e := by
  refine ⟨rfl, rfl, rfl, ?_⟩
  rw [requireAll_append, hpre]
  simp [requireAll, hm]

/-- Witness for C8_loader_aborts_on_throw: with the registry state a plain name
list, a first module that registers "a" and a second that throws, the loop
aborts with the error. -/
theorem C8_loader_aborts_witness :
    requireAll
      ([⟨"a.ts", fun s => .ok (s ++ ["a"])⟩] ++
        ⟨"b.ts", fun _ => .error .typeError⟩ ::
          [⟨"c.ts", fun s => .ok (s ++ ["c"])⟩])
      ([] : List String) = .error .typeError :=
  (C8_loader_aborts_on_throw [⟨"a.ts", fun s => .ok (s ++ ["a"])⟩]
    [⟨"c.ts", fun s => .ok (s ++ ["c"])⟩]
    ⟨"b.ts", fun _ => .error .typeError⟩ [] ["a"] .typeError rfl rfl).2.2.2

/-- C9: on a termination signal the shutdown coordinator always reaches the
Closed state — transport resources are released regardless of in-flight
request duration (whether or not the grace delay forces it) — and an error
encountered during signal handling is logged but does not prevent the close:
the closing log line is emitted in every case. -/
theorem C9_shutdown_reaches_closed (err : Option String)
    (callbackDurationMs : Nat) :
    (shutdownRun err callbackDurationMs).final = ShutdownState.Closed ∧
    "Fireboom hook server is closed" ∈ (shutdownRun err callbackDurationMs).logs ∧
    (∀ e : String, err = some e →
      "Error when graceful shutdown Fireboom hook server"
        ∈ (shutdownRun err callbackDurationMs).logs) := by
  refine ⟨rfl, ?_, ?_⟩
  · cases err <;> simp [shutdownRun, onCloseSignal]
  · rintro e rfl
    simp [shutdownRun, onCloseSignal]

/-- Witness for C9_shutdown_reaches_closed: an erroring signal, with a callback
outlasting the grace delay, still ends Closed with both log lines. -/
theorem C9_shutdown_witness :
    (shutdownRun (some "boom") 10000).final = ShutdownState.Closed ∧
    "Fireboom hook server is closed" ∈ (shutdownRun (some "boom") 10000).logs ∧
    (∀ e : String, (some "boom" : Option String) = some e →
      "Error when graceful shutdown Fireboom hook server"
        ∈ (shutdownRun (some "boom") 10000).logs) :=
  C9_shutdown_reaches_closed (some "boom") 10000

/-- C10: the health snapshot's time field is captured exactly once, when the
health module is loaded at process start: two health calls at different
wall-clock instants, with arbitrarily different live registry contents, return
the identical time value — the load-time reading. -/
theorem C10_start_time_captured_once (loadClock t1 t2 : String)
    (c1 c2 : CustomizeState) (f1 f2 : FunctionState) (p1 p2 : ProxyState) :
    (healthAt loadClock t1 c1 f1 p1).report.time
      = (healthAt loadClock t2 c2 f2 p2).report.time ∧
    (healthAt loadClock t1 c1 f1 p1).report.time = startTimeOfLoad loadClock :=
  ⟨rfl, rfl⟩

end Fireboom
